import Mathlib

/-
  Verification of the connection-registry and vendor-adapter subsystem.

  Shallow embedding of the Go sources:
  - internal/domain/database.go      (Database entity, DatabaseType, validation)
  - internal/domain/errors.go        (sentinel error values)
  - internal/domain/query.go         (QueryResult)
  - internal/adapters/output/postgres/adapter.go
      (vendor adapters, ConnectionManager: Connect, Disconnect, ExecuteQuery,
       IsConnected, ListConnections, DisconnectAll)
  - internal/service (databaseService: RegisterDatabase, ExecuteQuery,
       ListDatabases, DisconnectDatabase, GetDatabaseInfo)

  Go pointers to domain.Database are modelled by a heap: a function from
  natural-number references to Database values.  A ConnectionRecord stores a
  reference, exactly as the Go struct stores a *domain.Database, so aliasing
  between the registry and slices returned to callers is represented
  faithfully.  External effects (the SQL driver) are parameters: the outcome
  of an adapter connect is an argument of Connect, the driver-reported rows
  are an argument of ExecuteQuery.
-/

namespace DMS

/-- Supported vendor tag for PostgreSQL 16.3 (domain.PostgreSQL). -/
def PostgreSQL : String := "postgres16.3"

/-- Supported vendor tag for Oracle 11g (domain.Oracle11g). -/
def Oracle11g : String := "oracle11g"

/-- Supported vendor tag for Oracle 19c (domain.Oracle19c). -/
def Oracle19c : String := "oracle19c"

/-- Supported vendor tag for MariaDB 10.11 (domain.MariaDB). -/
def MariaDB : String := "mariadb10.11"

/-- Connection status enumeration (domain.ConnectionStatus). -/
inductive ConnectionStatus where
  | connected
  | disconnected
  | connecting
  | error
  deriving DecidableEq, Repr

/-- The Database entity (domain.Database).  The Go field Type is spelled
DbType here because Type is reserved in Lean. -/
structure Database where
  ID : String
  Name : String
  DbType : String
  Host : String
  Port : Int
  Schema : String
  Username : String
  Password : String
  Status : ConnectionStatus
  deriving DecidableEq, Repr

/-- DatabaseType.IsValid: the tag is one of the four supported constants. -/
def DatabaseType.IsValid (dt : String) : Bool :=
  decide (dt = PostgreSQL ∨ dt = Oracle11g ∨ dt = Oracle19c ∨ dt = MariaDB)

/-- Database.Validate: returns the first failing check as some message, none
on success; the checks and their order follow the source (ID, Name, Host,
Port range, Username, Password, vendor tag).  The source mutates nothing;
the embedding is accordingly a pure function of the record. -/
def Database.Validate (db : Database) : Option String :=
  if db.ID = "" then some ("database ID is required")
  else if db.Name = "" then some ("database name is required")
  else if db.Host = "" then some ("host is required")
  else if db.Port < 1 ∨ db.Port > 65535 then some ("invalid port number (must be 1-65535)")
  else if db.Username = "" then some ("username is required")
  else if db.Password = "" then some ("password is required")
  else if DatabaseType.IsValid db.DbType = false then some ("unsupported database type")
  else none

/-- Database.CanConnect: Host, positive Port, Username, Password present. -/
def Database.CanConnect (db : Database) : Bool :=
  decide (db.Host ≠ "" ∧ db.Port > 0 ∧ db.Username ≠ "" ∧ db.Password ≠ "")

/-- Database.MaskedPassword: a fixed mask when a password is set, empty
string otherwise. -/
def Database.MaskedPassword (db : Database) : String :=
  if db.Password.length = 0 then "" else "****"

/-- DatabaseType.DefaultPort: conventional port per vendor tag. -/
def DatabaseType.DefaultPort (dt : String) : Int :=
  if dt = PostgreSQL then 5432
  else if dt = Oracle11g ∨ dt = Oracle19c then 1521
  else if dt = MariaDB then 3306
  else 0

/-- Error outcomes of the registry and service, covering the sentinel
values of domain/errors.go plus the fmt.Errorf wrappings the code builds. -/
inductive GoError where
  | databaseNotFound
  | databaseNotConnected
  | alreadyConnected
  | connectionFailed
  | invalidQuery
  | invalidDatabaseType
  | missingCredentials
  | validationFailed (msg : String)
  | connectFailed (msg : String)
  | closeFailed (msg : String)
  | queryFailed (msg : String)
  | disconnectErrors (msgs : List String)
  | requiredField (msg : String)
  | wrapped (msg : String) (cause : GoError)
  deriving DecidableEq, Repr

/-- Decidable equality on Except values, for evaluating concrete registry
outcomes. -/
instance instDecEqExcept (ε α : Type) [DecidableEq ε] [DecidableEq α] :
    DecidableEq (Except ε α) := fun x y =>
  match x, y with
  | Except.ok a, Except.ok b =>
    if h : a = b then isTrue (by rw [h]) else isFalse (by intro hh; cases hh; exact h rfl)
  | Except.error a, Except.error b =>
    if h : a = b then isTrue (by rw [h]) else isFalse (by intro hh; cases hh; exact h rfl)
  | Except.ok _, Except.error _ => isFalse (by intro hh; cases hh)
  | Except.error _, Except.ok _ => isFalse (by intro hh; cases hh)

/-- Driver values inside a result row (interface value read by rows.Scan). -/
inductive Value where
  | vNull
  | vInt (n : Int)
  | vStr (s : String)
  deriving DecidableEq, Repr

/-- A Go map from column name to value, represented as an association list
whose insert replaces an existing key in place and otherwise appends. -/
abbrev RowMap := List (String × Value)

/-- Assignment row[k] = v on a Go map. -/
def mapInsert (m : RowMap) (k : String) (v : Value) : RowMap :=
  if m.any (fun p => p.1 = k) then
    m.map (fun p => if p.1 = k then (k, v) else p)
  else m ++ [(k, v)]

/-- The row-building loop of the adapters: for i, col in columns,
row[col] = values[i]. -/
def rowLoop : RowMap → List (String × Value) → RowMap
  | m, [] => m
  | m, p :: rest => rowLoop (mapInsert m p.1 p.2) rest

/-- Build one row mapping from the column names and scanned values. -/
def buildRow (cols : List String) (vals : List Value) : RowMap :=
  rowLoop [] (cols.zip vals)

/-- Keys of a row mapping, in representation order. -/
def rowKeys (m : RowMap) : List String := m.map Prod.fst

/-- Size of the key set of a row mapping. -/
def keySetSize (m : RowMap) : Nat := (rowKeys m).dedup.length

/-- QueryResult (domain.QueryResult); ExecutionTime is wall-clock time and
is not modelled. -/
structure QueryResult where
  Columns : List String
  Rows : List RowMap
  RowsAffected : Int
  deriving DecidableEq, Repr

/-- Data the SQL driver reports for one statement: the column names and,
per result row, the values rows.Scan stores (one per column). -/
structure DriverRows where
  columns : List String
  rows : List (List Value)
  deriving DecidableEq, Repr

/-- The shared body of PostgresAdapter.ExecuteQuery and
OracleAdapter.ExecuteQuery: take the driver-reported column names, build a
map per row, count rows. -/
def adapterExecuteQuery (dr : DriverRows) : QueryResult :=
  { Columns := dr.columns
    Rows := dr.rows.map (fun vals => buildRow dr.columns vals)
    RowsAffected := (dr.rows.length : Int) }

/-- Heap of Database values: models the Go heap cells that *domain.Database
pointers refer to.  References are natural numbers. -/
abbrev Heap := Nat → Database

/-- Assignment through a pointer: the cell at reference r now holds d. -/
def Heap.write (h : Heap) (r : Nat) (d : Database) : Heap :=
  fun x => if x = r then d else h x

/-- Replace the Status field, as the Go code does through conn.DB. -/
def Database.setStatus (d : Database) (st : ConnectionStatus) : Database :=
  { d with Status := st }

/-- Behaviour of an opaque pool handle (*sql.DB) for the operations the
registry performs on it: the result of Close and of PingContext. -/
structure PoolHandle where
  closeErr : Option String
  pingOk : Bool
  deriving DecidableEq, Repr

/-- The vendor adapter selected for a record.  createAdapter registers a
postgres adapter and one oracle adapter shared by both oracle tags; the
mariadb case in the source is commented out. -/
inductive Adapter where
  | postgres
  | oracle19c
  deriving DecidableEq, Repr

/-- ConnectionManager.createAdapter: type-switch from vendor tag to
adapter.  Cases in source order: PostgreSQL, Oracle19c, Oracle11g; the
MariaDB branch is commented out in the source, so it falls to the default,
which returns ErrInvalidDatabaseType. -/
def createAdapter (dbType : String) : Except GoError Adapter :=
  if dbType = PostgreSQL then Except.ok Adapter.postgres
  else if dbType = Oracle19c then Except.ok Adapter.oracle19c
  else if dbType = Oracle11g then Except.ok Adapter.oracle19c
  else Except.error GoError.invalidDatabaseType

/-- One registry record (output.Connection): a pointer to the Database, the
pool handle, and the selected adapter. -/
structure Connection where
  dbRef : Nat
  ConnPool : PoolHandle
  AdapterKind : Adapter
  deriving DecidableEq, Repr

/-- Registry state (output.ConnectionManager): the heap of Database cells
and the id-to-record map, kept as an association list with unique keys. -/
structure ConnectionManager where
  heap : Heap
  connections : List (String × Connection)

/-- Map lookup cm.connections[dbID]. -/
def lookupConn (l : List (String × Connection)) (dbID : String) : Option Connection :=
  (l.find? (fun p => p.1 = dbID)).map (fun p => p.2)

/-- Map removal delete(cm.connections, dbID). -/
def removeConn (l : List (String × Connection)) (dbID : String) :
    List (String × Connection) :=
  l.filter (fun p => ¬ p.1 = dbID)

/-- ConnectionManager.Connect.  The network outcome of the vendor adapter
connect (its inner open plus 5 or 10 second ping) is the adapterConnect
argument; pool-limit configuration (SetMaxOpenConns, SetMaxIdleConns,
SetConnMaxLifetime) has no observable effect in this model; the re-probe
PingContext after configuration is the pingOk field of the handle.  On
duplicate id it fails with ErrAlreadyConnected before any network step; on
unknown vendor tag it fails with createAdapter's error; on success it
stores the record and then sets Status = Connected through the pointer. -/
def ConnectionManager.Connect (cm : ConnectionManager) (r : Nat)
    (adapterConnect : Adapter → Database → Except String PoolHandle) :
    Except GoError Unit × ConnectionManager :=
  let db := cm.heap r
  if (lookupConn cm.connections db.ID).isSome then
    (Except.error GoError.alreadyConnected, cm)
  else
    match createAdapter db.DbType with
    | Except.error e => (Except.error e, cm)
    | Except.ok adapter =>
      match adapterConnect adapter db with
      | Except.error e =>
          (Except.error (GoError.connectFailed ("failed to connect to " ++ db.ID ++ ": " ++ e)), cm)
      | Except.ok pool =>
          if pool.pingOk = false then
            (Except.error (GoError.connectFailed ("ping failed for " ++ db.ID)), cm)
          else
            let conns2 := cm.connections ++ [(db.ID, { dbRef := r, ConnPool := pool, AdapterKind := adapter })]
            let cm2 := { cm with connections := conns2 }
            let h2 := Heap.write cm2.heap r (Database.setStatus (cm2.heap r) ConnectionStatus.connected)
            (Except.ok (), { cm2 with heap := h2 })

/-- ConnectionManager.Disconnect.  Absent id: ErrDatabaseNotFound.  Present
id: Close the pool first; if Close fails the function returns the wrapped
error immediately, before the status update and before delete, so the
record stays registered.  Only when Close succeeds is the status set to
Disconnected and the record removed. -/
def ConnectionManager.Disconnect (cm : ConnectionManager) (dbID : String) :
    Except GoError Unit × ConnectionManager :=
  match lookupConn cm.connections dbID with
  | none => (Except.error GoError.databaseNotFound, cm)
  | some conn =>
    match conn.ConnPool.closeErr with
    | some e => (Except.error (GoError.closeFailed e), cm)
    | none =>
      let h2 := Heap.write cm.heap conn.dbRef
        (Database.setStatus (cm.heap conn.dbRef) ConnectionStatus.disconnected)
      let cm2 := { cm with heap := h2 }
      (Except.ok (), { cm2 with connections := removeConn cm2.connections dbID })

/-- ConnectionManager.ExecuteQuery: look the record up (under a read lock in
the source), then run the query through the record's adapter.  The driver
argument supplies what the database returns for the statement. -/
def ConnectionManager.ExecuteQuery (cm : ConnectionManager) (dbID query : String)
    (driver : PoolHandle → String → Except String DriverRows) :
    Except GoError QueryResult × ConnectionManager :=
  match lookupConn cm.connections dbID with
  | none => (Except.error GoError.databaseNotFound, cm)
  | some conn =>
    match driver conn.ConnPool query with
    | Except.error e => (Except.error (GoError.queryFailed e), cm)
    | Except.ok dr => (Except.ok (adapterExecuteQuery dr), cm)

/-- ConnectionManager.IsConnected: false for an absent id; for a present id
it pings the pool, and on ping failure sets the record's cached status to
Disconnected through the pointer and returns false; on ping success it
returns whether the cached status is Connected. -/
def ConnectionManager.IsConnected (cm : ConnectionManager) (dbID : String) :
    Bool × ConnectionManager :=
  match lookupConn cm.connections dbID with
  | none => (false, cm)
  | some conn =>
    if conn.ConnPool.pingOk = false then
      let h2 := Heap.write cm.heap conn.dbRef
        (Database.setStatus (cm.heap conn.dbRef) ConnectionStatus.disconnected)
      (false, { cm with heap := h2 })
    else
      (decide ((cm.heap conn.dbRef).Status = ConnectionStatus.connected), cm)

/-- ConnectionManager.ListConnections: returns, per record, the stored
*domain.Database pointer itself (append of conn.DB), not a copied value;
here the list of heap references.  It never returns an error. -/
def ConnectionManager.ListConnections (cm : ConnectionManager) : List Nat :=
  cm.connections.map (fun p => p.2.dbRef)

/-- Mutation of a Database value obtained from ListConnections: writing
through one of the returned pointers. -/
def writeThroughRef (cm : ConnectionManager) (r : Nat) (d : Database) :
    ConnectionManager :=
  { cm with heap := Heap.write cm.heap r d }

/-- The Database value the registry stores for an id: the record's pointer
dereferenced in the current heap. -/
def storedDB (cm : ConnectionManager) (dbID : String) : Option Database :=
  (lookupConn cm.connections dbID).map (fun c => cm.heap c.dbRef)

/-- The loop body of DisconnectAll over the records: close each pool,
collecting the per-connection close error message if any, and set each
record's status to Disconnected through its pointer; no early return. -/
def closeAll : Heap → List (String × Connection) → List String × Heap
  | h, [] => ([], h)
  | h, p :: rest =>
    let h2 := Heap.write h p.2.dbRef
      (Database.setStatus (h p.2.dbRef) ConnectionStatus.disconnected)
    let r := closeAll h2 rest
    match p.2.ConnPool.closeErr with
    | some e => (("failed to close " ++ p.1 ++ ": " ++ e) :: r.1, r.2)
    | none => r

/-- ConnectionManager.DisconnectAll: run the closing loop, then replace the
map by a fresh empty one unconditionally, and return the aggregate error
exactly when the collected error list is non-empty. -/
def ConnectionManager.DisconnectAll (cm : ConnectionManager) :
    Except GoError Unit × ConnectionManager :=
  let r := closeAll cm.heap cm.connections
  let cm2 : ConnectionManager := { heap := r.2, connections := [] }
  if r.1.length = 0 then (Except.ok (), cm2)
  else (Except.error (GoError.disconnectErrors r.1), cm2)

/-- Masking pass of the Orchestration Service: databases[i].Password =
databases[i].MaskedPassword(), applied through the pointer at reference r. -/
def maskStep (h : Heap) (r : Nat) : Heap :=
  Heap.write h r { h r with Password := Database.MaskedPassword (h r) }

/-- In-place password masking of one Database value. -/
def mask1 (d : Database) : Database :=
  { d with Password := Database.MaskedPassword d }

/-- databaseService.ListDatabases: fetch the repository's ListConnections
slice (pointers into the registry), mask the Password field of each element
in place, and return the same slice. -/
def serviceListDatabases (cm : ConnectionManager) : List Nat × ConnectionManager :=
  let refs := cm.ListConnections
  (refs, { cm with heap := refs.foldl maskStep cm.heap })

/-- databaseService.GetDatabaseInfo: reject an empty id, fetch
ListConnections, return the first element whose ID matches after masking
its Password field in place; ErrDatabaseNotFound when no element matches. -/
def serviceGetDatabaseInfo (cm : ConnectionManager) (dbID : String) :
    Except GoError Nat × ConnectionManager :=
  if dbID.length = 0 then (Except.error (GoError.requiredField ("dbID is required")), cm)
  else
    match cm.ListConnections.find? (fun r => (cm.heap r).ID = dbID) with
    | some r => (Except.ok r, { cm with heap := maskStep cm.heap r })
    | none => (Except.error GoError.databaseNotFound, cm)

/-- databaseService.ExecuteQuery: reject empty id or query, then the
IsConnected pre-check (with its status side effect); if it reports false
the service returns ErrDatabaseNotConnected without consulting the
registry lookup; otherwise it delegates to the repository ExecuteQuery and
wraps a failure. -/
def serviceExecuteQuery (cm : ConnectionManager) (dbID query : String)
    (driver : PoolHandle → String → Except String DriverRows) :
    Except GoError QueryResult × ConnectionManager :=
  if dbID.length = 0 then (Except.error (GoError.requiredField ("dbID is required")), cm)
  else if query.length = 0 then (Except.error (GoError.requiredField ("query is required")), cm)
  else
    let res := cm.IsConnected dbID
    if res.1 = false then (Except.error GoError.databaseNotConnected, res.2)
    else
      match res.2.ExecuteQuery dbID query driver with
      | (Except.error e, cm2) => (Except.error (GoError.wrapped ("query execution failed") e), cm2)
      | (Except.ok r, cm2) => (Except.ok r, cm2)

/-- databaseService.DisconnectDatabase: reject an empty id; if the
IsConnected pre-check reports false return ErrDatabaseNotFound; otherwise
delegate to the repository Disconnect, wrapping a failure. -/
def serviceDisconnectDatabase (cm : ConnectionManager) (dbID : String) :
    Except GoError Unit × ConnectionManager :=
  if dbID.length = 0 then (Except.error (GoError.requiredField ("dbID is required")), cm)
  else
    let res := cm.IsConnected dbID
    if res.1 = false then (Except.error GoError.databaseNotFound, res.2)
    else
      match res.2.Disconnect dbID with
      | (Except.error e, cm2) => (Except.error (GoError.wrapped ("failed to disconnect") e), cm2)
      | (Except.ok _, cm2) => (Except.ok (), cm2)

/-- databaseService.RegisterDatabase: Validate, then vendor-tag validity,
then CanConnect, in that order, short-circuiting; only then the repository
Connect. -/
def serviceRegisterDatabase (cm : ConnectionManager) (r : Nat)
    (adapterConnect : Adapter → Database → Except String PoolHandle) :
    Except GoError Unit × ConnectionManager :=
  let db := cm.heap r
  match Database.Validate db with
  | some msg => (Except.error (GoError.validationFailed msg), cm)
  | none =>
    if DatabaseType.IsValid db.DbType = false then
      (Except.error GoError.invalidDatabaseType, cm)
    else if Database.CanConnect db = false then
      (Except.error GoError.missingCredentials, cm)
    else
      match cm.Connect r adapterConnect with
      | (Except.error e, cm2) => (Except.error (GoError.wrapped ("failed to connect to database") e), cm2)
      | (Except.ok _, cm2) => (Except.ok (), cm2)

/-- Sample database record builder used by the concrete registry states
below: a valid PostgreSQL target with the given id, password and status. -/
def mkDB (id : String) (pw : String) (st : ConnectionStatus) : Database :=
  { ID := id, Name := "n", DbType := PostgreSQL, Host := "db.local", Port := 5432,
    Schema := "", Username := "u", Password := pw, Status := st }

/-- A connected record whose stored password is the secret. -/
def dbSecret : Database := mkDB ("db1") ("secret") ConnectionStatus.connected

/-- A pool handle whose Close succeeds and whose ping succeeds. -/
def poolOk : PoolHandle := { closeErr := none, pingOk := true }

/-- A pool handle whose Close fails. -/
def poolBadClose : PoolHandle := { closeErr := some ("boom"), pingOk := true }

/-- A pool handle whose ping fails. -/
def poolBadPing : PoolHandle := { closeErr := none, pingOk := false }

/-- A healthy registry record at heap reference 0. -/
def connOk : Connection := { dbRef := 0, ConnPool := poolOk, AdapterKind := Adapter.postgres }

/-- A record whose pool Close fails. -/
def connBadClose : Connection := { dbRef := 0, ConnPool := poolBadClose, AdapterKind := Adapter.postgres }

/-- A record whose health probe fails. -/
def connBadPing : Connection := { dbRef := 0, ConnPool := poolBadPing, AdapterKind := Adapter.postgres }

/-- Registry with one healthy record under id db1. -/
def cmOne : ConnectionManager := { heap := fun _ => dbSecret, connections := [("db1", connOk)] }

/-- Registry with one record whose pool Close fails. -/
def cmBadClose : ConnectionManager := { heap := fun _ => dbSecret, connections := [("db1", connBadClose)] }

/-- Registry with one record whose health probe fails. -/
def cmBadPing : ConnectionManager := { heap := fun _ => dbSecret, connections := [("db1", connBadPing)] }

/-- A disconnected, valid database value named pg1 for the register,
query, disconnect, query scenario. -/
def dbPg1 : Database := mkDB ("pg1") ("p") ConnectionStatus.disconnected

/-- Empty registry whose heap cell 0 holds the pg1 record. -/
def cmEmptyPg1 : ConnectionManager := { heap := fun _ => dbPg1, connections := [] }

/-- An adapter-connect outcome that always yields a healthy pool. -/
def adapterConnectOk : Adapter → Database → Except String PoolHandle :=
  fun _ _ => Except.ok poolOk

/-- Registry state after a successful Connect of pg1. -/
def cmPg1 : ConnectionManager := (ConnectionManager.Connect cmEmptyPg1 0 adapterConnectOk).2

/-- Registry state after the subsequent successful Disconnect of pg1. -/
def cmPg1Gone : ConnectionManager := (ConnectionManager.Disconnect cmPg1 ("pg1")).2

/-- A driver outcome returning one column and one row. -/
def driverOne : PoolHandle → String → Except String DriverRows :=
  fun _ _ => Except.ok { columns := ["one"], rows := [[Value.vInt 1]] }

/-- Connected record a at reference 0 whose close succeeds. -/
def dbA : Database := mkDB ("a") ("pa") ConnectionStatus.connected

/-- Connected record b at reference 1 whose close fails. -/
def dbB : Database := mkDB ("b") ("pb") ConnectionStatus.connected

/-- Heap holding dbA at 0 and dbB elsewhere. -/
def heapAB : Heap := fun x => if x = 0 then dbA else dbB

/-- Record for dbA. -/
def connA : Connection := { dbRef := 0, ConnPool := poolOk, AdapterKind := Adapter.postgres }

/-- Record for dbB, whose pool Close fails. -/
def connB : Connection := { dbRef := 1, ConnPool := poolBadClose, AdapterKind := Adapter.oracle19c }

/-- Registry with the two records a and b. -/
def cmAB : ConnectionManager := { heap := heapAB, connections := [("a", connA), ("b", connB)] }

/-- Driver-reported result whose two column names collide. -/
def drDup : DriverRows := { columns := ["a", "a"], rows := [[Value.vNull, Value.vInt 1]] }

/-- Driver-reported result with distinct column names. -/
def drGood : DriverRows := { columns := ["a", "b"], rows := [[Value.vNull, Value.vInt 1]] }

/-- The dbSecret value with its password overwritten by a caller. -/
def dbChanged : Database := { dbSecret with Password := "changed" }

/-- A valid MariaDB database value at heap cell 0. -/
def dbMaria : Database :=
  { ID := "m1", Name := "n", DbType := MariaDB, Host := "h", Port := 3306,
    Schema := "", Username := "u", Password := "p", Status := ConnectionStatus.disconnected }

/-- Empty registry whose heap cell 0 holds the MariaDB record. -/
def cmMaria : ConnectionManager := { heap := fun _ => dbMaria, connections := [] }

end DMS

namespace DMS

/-- Reading the cell just written returns the written value. -/
theorem Heap.write_same (h : Heap) (r : Nat) (d : Database) :
    Heap.write h r d r = d := by
  simp [Heap.write]

/-- Writing one cell leaves every other cell unchanged. -/
theorem Heap.write_ne (h : Heap) (r x : Nat) (d : Database) (hx : x ≠ r) :
    Heap.write h r d x = h x := by
  simp [Heap.write, hx]

/-- After delete, lookup of the deleted id misses. -/
theorem lookupConn_removeConn (l : List (String × Connection)) (dbID : String) :
    lookupConn (removeConn l dbID) dbID = none := by
  induction l with
  | nil => rfl
  | cons p rest ih =>
    by_cases hp : p.1 = dbID
    · simp [removeConn, lookupConn, hp] at ih ⊢
    · simp [removeConn, lookupConn, hp] at ih ⊢

/-- A successful lookup comes from a list entry with the looked-up key. -/
theorem lookupConn_mem (l : List (String × Connection)) (dbID : String) (c : Connection)
    (h : lookupConn l dbID = some c) : ∃ p ∈ l, p.2 = c ∧ p.1 = dbID := by
  unfold lookupConn at h
  cases hf : l.find? (fun p => p.1 = dbID) with
  | none => rw [hf] at h; simp at h
  | some q =>
    rw [hf] at h
    simp only [Option.map_some'] at h
    have hq := List.mem_of_find?_eq_some hf
    have hps := List.find?_some hf
    exact ⟨q, hq, by simpa using h, by simpa using hps⟩

/-- IsConnected never adds or removes records; it only touches the heap. -/
theorem isConnected_connections (cm : ConnectionManager) (dbID : String) :
    (ConnectionManager.IsConnected cm dbID).2.connections = cm.connections := by
  unfold ConnectionManager.IsConnected
  cases h : lookupConn cm.connections dbID with
  | none => rfl
  | some conn => by_cases hp : conn.ConnPool.pingOk = false <;> simp [hp]

/-- The closing loop collects no error exactly when every close succeeds. -/
theorem closeAll_errs_empty (l : List (String × Connection)) :
    ∀ h : Heap, ((closeAll h l).1 = [] ↔ ∀ p ∈ l, p.2.ConnPool.closeErr = none) := by
  induction l with
  | nil => intro h; simp [closeAll]
  | cons p rest ih =>
    intro h
    cases hc : p.2.ConnPool.closeErr with
    | some e => simp [closeAll, hc]
    | none => simp [closeAll, hc, ih]

/-- After the closing loop, every cell referenced by some record, and every
cell already marked disconnected, reads Disconnected. -/
theorem closeAll_status (l : List (String × Connection)) :
    ∀ (h : Heap) (r : Nat),
      ((h r).Status = ConnectionStatus.disconnected ∨ ∃ p ∈ l, p.2.dbRef = r) →
      (((closeAll h l).2) r).Status = ConnectionStatus.disconnected := by
  induction l with
  | nil =>
    intro h r hr
    rcases hr with h1 | ⟨p, hp, _⟩
    · simpa [closeAll] using h1
    · simp at hp
  | cons p rest ih =>
    intro h r hr
    have hstep : ((closeAll h (p :: rest)).2) =
        ((closeAll (Heap.write h p.2.dbRef
          (Database.setStatus (h p.2.dbRef) ConnectionStatus.disconnected)) rest).2) := by
      cases hc : p.2.ConnPool.closeErr <;> simp [closeAll, hc]
    rw [hstep]
    apply ih
    by_cases he : p.2.dbRef = r
    · left
      subst he
      rw [Heap.write_same]
      rfl
    · rcases hr with h1 | ⟨q, hq, hqr⟩
      · left
        rw [Heap.write_ne h p.2.dbRef r _ (fun hh => he hh.symm)]
        exact h1
      · rcases List.mem_cons.mp hq with rfl | hq2
        · exact absurd hqr he
        · right; exact ⟨q, hq2, hqr⟩

/-- Masking is idempotent on a Database value. -/
theorem mask1_idem (d : Database) : mask1 (mask1 d) = mask1 d := by
  unfold mask1 Database.MaskedPassword
  by_cases hp : d.Password.length = 0
  · simp [hp]
  · simp [hp]
    decide

/-- Pointwise description of the masking pass of ListDatabases: a cell is
masked when its reference occurs in the slice, untouched otherwise. -/
theorem maskFold_at (refs : List Nat) :
    ∀ (h : Heap) (r : Nat),
      (refs.foldl maskStep h) r = if r ∈ refs then mask1 (h r) else h r := by
  induction refs with
  | nil => intro h r; simp
  | cons a rest ih =>
    intro h r
    simp only [List.foldl_cons]
    rw [ih]
    by_cases ha : r = a
    · subst ha
      have hw : maskStep h r r = mask1 (h r) := Heap.write_same h r (mask1 (h r))
      rw [hw]
      by_cases hm : r ∈ rest <;> simp [hm, mask1_idem]
    · have hw : maskStep h a r = h r :=
        Heap.write_ne h a r (mask1 (h a)) ha
      rw [hw]
      simp [List.mem_cons, ha]

end DMS

namespace DMS

/-- Inserting a fresh key appends it to the key list. -/
theorem keys_mapInsert (m : RowMap) (k : String) (v : Value) (hk : k ∉ rowKeys m) :
    rowKeys (mapInsert m k v) = rowKeys m ++ [k] := by
  have hany : ¬ (m.any (fun p => p.1 = k) = true) := by
    intro ha
    rcases List.any_eq_true.mp ha with ⟨p, hp, hpk⟩
    exact hk (List.mem_map.mpr ⟨p, hp, by simpa using hpk⟩)
  unfold mapInsert
  rw [if_neg hany]
  simp [rowKeys]

/-- When the keys already present and the keys still to be inserted are
jointly distinct, the row loop produces exactly their concatenation. -/
theorem rowLoop_keys (pairs : List (String × Value)) :
    ∀ m : RowMap, (rowKeys m ++ pairs.map Prod.fst).Nodup →
      rowKeys (rowLoop m pairs) = rowKeys m ++ pairs.map Prod.fst := by
  induction pairs with
  | nil => intro m h; simp [rowLoop]
  | cons p rest ih =>
    intro m h
    rw [List.map_cons] at h
    have hd := (List.nodup_append.mp h).2.2
    have hk : p.1 ∉ rowKeys m := fun hmem => hd hmem (List.mem_cons_self p.1 _)
    have hkeys := keys_mapInsert m p.1 p.2 hk
    have h2 : (rowKeys (mapInsert m p.1 p.2) ++ rest.map Prod.fst).Nodup := by
      rw [hkeys]
      rw [List.append_cons] at h
      exact h
    calc rowKeys (rowLoop m (p :: rest))
        = rowKeys (rowLoop (mapInsert m p.1 p.2) rest) := rfl
      _ = rowKeys (mapInsert m p.1 p.2) ++ rest.map Prod.fst := ih _ h2
      _ = (rowKeys m ++ [p.1]) ++ rest.map Prod.fst := by rw [hkeys]
      _ = rowKeys m ++ (p :: rest).map Prod.fst := by simp

end DMS

namespace DMS

/-- Claim C1 (confirmed).  Validate accepts a Database exactly when id,
name, host, username and password are non-empty, the port lies in 1..65535
and the vendor tag is valid; and the valid vendor tags are exactly
postgres16.3, oracle11g, oracle19c and mariadb10.11.  The source function
mutates nothing and performs no I/O, so its embedding is a pure function
of the record. -/
theorem claim_C1 (db : Database) :
    (Database.Validate db = none ↔
      (db.ID ≠ "" ∧ db.Name ≠ "" ∧ db.Host ≠ "" ∧ db.Username ≠ "" ∧ db.Password ≠ "" ∧
        1 ≤ db.Port ∧ db.Port ≤ 65535 ∧ DatabaseType.IsValid db.DbType = true)) ∧
    (DatabaseType.IsValid db.DbType = true ↔
      (db.DbType = PostgreSQL ∨ db.DbType = Oracle11g ∨ db.DbType = Oracle19c ∨
        db.DbType = MariaDB)) := by
  constructor
  · unfold Database.Validate
    split_ifs with h1 h2 h3 h4 h5 h6 h7 <;> simp_all <;> omega
  · unfold DatabaseType.IsValid
    simp

/-- Witness for claim C1 at a concrete valid record. -/
theorem claim_C1_witness :
    Database.Validate dbSecret = none ∧ DatabaseType.IsValid dbSecret.DbType = true :=
  ⟨(claim_C1 dbSecret).1.mpr (by decide), by decide⟩

/-- Claim C2 (refuted as stated).  With one registered record whose pool
Close fails, Disconnect reports the close error but the record is NOT
removed and its status is NOT set to Disconnected: the source returns
early on a Close error, before the status update and the delete. -/
theorem claim_C2_counterexample :
    (ConnectionManager.Disconnect cmBadClose ("db1")).1 =
      Except.error (GoError.closeFailed ("boom")) ∧
    lookupConn (ConnectionManager.Disconnect cmBadClose ("db1")).2.connections ("db1") =
      some connBadClose ∧
    ((ConnectionManager.Disconnect cmBadClose ("db1")).2.heap 0).Status =
      ConnectionStatus.connected := by
  decide

/-- Claim C2 (amended).  For a registered id, Disconnect closes the pool,
sets the status to Disconnected and removes the record only when Close
succeeds; when Close fails it returns the close error and leaves the
registry completely unchanged, the record still registered. -/
theorem claim_C2_amended (cm : ConnectionManager) (dbID : String) (conn : Connection)
    (h : lookupConn cm.connections dbID = some conn) :
    (conn.ConnPool.closeErr = none →
      (ConnectionManager.Disconnect cm dbID).1 = Except.ok () ∧
      lookupConn (ConnectionManager.Disconnect cm dbID).2.connections dbID = none ∧
      ((ConnectionManager.Disconnect cm dbID).2.heap conn.dbRef).Status =
        ConnectionStatus.disconnected) ∧
    (∀ e, conn.ConnPool.closeErr = some e →
      ConnectionManager.Disconnect cm dbID = (Except.error (GoError.closeFailed e), cm)) := by
  constructor
  · intro hc
    refine ⟨?_, ?_, ?_⟩
    · simp [ConnectionManager.Disconnect, h, hc]
    · simp only [ConnectionManager.Disconnect, h, hc]
      exact lookupConn_removeConn cm.connections dbID
    · simp only [ConnectionManager.Disconnect, h, hc]
      rw [Heap.write_same]
      rfl
  · intro e hc
    simp [ConnectionManager.Disconnect, h, hc]

/-- Witness for the amended claim C2 at a record whose close succeeds. -/
theorem claim_C2_witness :
    lookupConn cmOne.connections ("db1") = some connOk ∧
    connOk.ConnPool.closeErr = none ∧
    (ConnectionManager.Disconnect cmOne ("db1")).1 = Except.ok () ∧
    lookupConn (ConnectionManager.Disconnect cmOne ("db1")).2.connections ("db1") = none :=
  ⟨by decide, by decide,
    ((claim_C2_amended cmOne ("db1") connOk (by decide)).1 (by decide)).1,
    ((claim_C2_amended cmOne ("db1") connOk (by decide)).1 (by decide)).2.1⟩

end DMS

namespace DMS

/-- Claim C3 (refuted as stated).  The scenario registers pg1 through the
registry, disconnects it successfully, then issues a service-level query
for pg1: the service returns ErrDatabaseNotConnected, because its
IsConnected pre-check fires before the registry lookup that would report
ErrDatabaseNotFound; the claimed NotFound outcome is a different error
value. -/
theorem claim_C3_counterexample :
    (ConnectionManager.Connect cmEmptyPg1 0 adapterConnectOk).1 = Except.ok () ∧
    (ConnectionManager.Disconnect cmPg1 ("pg1")).1 = Except.ok () ∧
    (serviceExecuteQuery cmPg1Gone ("pg1") ("SELECT 1") driverOne).1 =
      Except.error GoError.databaseNotConnected ∧
    GoError.databaseNotConnected ≠ GoError.databaseNotFound := by
  decide

/-- Claim C3 (amended).  After a successful disconnect removes the id, a
service-level query for that id returns the NotConnected outcome
(ErrDatabaseNotConnected), not NotFound: for any registry state in which
the id is absent, the service short-circuits on IsConnected and leaves the
state unchanged. -/
theorem claim_C3_amended (cm : ConnectionManager) (dbID query : String)
    (driver : PoolHandle → String → Except String DriverRows)
    (h1 : dbID.length ≠ 0) (h2 : query.length ≠ 0)
    (h3 : lookupConn cm.connections dbID = none) :
    serviceExecuteQuery cm dbID query driver =
      (Except.error GoError.databaseNotConnected, cm) := by
  unfold serviceExecuteQuery ConnectionManager.IsConnected
  simp [h1, h2, h3]

/-- Witness for the amended claim C3 in the post-disconnect state of the
scenario. -/
theorem claim_C3_witness :
    ("pg1" : String).length ≠ 0 ∧ ("SELECT 1" : String).length ≠ 0 ∧
    lookupConn cmPg1Gone.connections ("pg1") = none ∧
    serviceExecuteQuery cmPg1Gone ("pg1") ("SELECT 1") driverOne =
      (Except.error GoError.databaseNotConnected, cmPg1Gone) :=
  ⟨by decide, by decide, by decide,
    claim_C3_amended cmPg1Gone ("pg1") ("SELECT 1") driverOne (by decide) (by decide) (by decide)⟩

/-- Claim C4 (confirmed).  DisconnectAll clears the registry
unconditionally, marks every record's Database cell Disconnected, and
returns success exactly when every pool close succeeded — an aggregate
error exactly when at least one close failed, without short-circuiting. -/
theorem claim_C4 (cm : ConnectionManager) :
    (ConnectionManager.DisconnectAll cm).2.connections = [] ∧
    (∀ p ∈ cm.connections,
      ((ConnectionManager.DisconnectAll cm).2.heap p.2.dbRef).Status =
        ConnectionStatus.disconnected) ∧
    ((ConnectionManager.DisconnectAll cm).1 = Except.ok () ↔
      ∀ p ∈ cm.connections, p.2.ConnPool.closeErr = none) := by
  have hconn : (ConnectionManager.DisconnectAll cm).2.connections = [] := by
    unfold ConnectionManager.DisconnectAll
    by_cases hl : (closeAll cm.heap cm.connections).1.length = 0 <;> simp [hl]
  have hheap : (ConnectionManager.DisconnectAll cm).2.heap =
      (closeAll cm.heap cm.connections).2 := by
    unfold ConnectionManager.DisconnectAll
    by_cases hl : (closeAll cm.heap cm.connections).1.length = 0 <;> simp [hl]
  have hfst : ((ConnectionManager.DisconnectAll cm).1 = Except.ok () ↔
      (closeAll cm.heap cm.connections).1 = []) := by
    unfold ConnectionManager.DisconnectAll
    by_cases hl : (closeAll cm.heap cm.connections).1.length = 0
    · simp [hl, List.length_eq_zero.mp hl]
    · simp only [hl]
      constructor
      · intro hh
        simp at hh
      · intro hh
        exact absurd (by rw [hh]; rfl) hl
  refine ⟨hconn, ?_, ?_⟩
  · intro p hp
    rw [hheap]
    exact closeAll_status cm.connections cm.heap p.2.dbRef (Or.inr ⟨p, hp, rfl⟩)
  · exact hfst.trans (closeAll_errs_empty cm.connections cm.heap)

/-- Witness for claim C4 on a registry of two records, one of whose closes
fails: the registry is emptied, both statuses flip, and the aggregate
error is returned. -/
theorem claim_C4_witness :
    (ConnectionManager.DisconnectAll cmAB).2.connections = [] ∧
    ((ConnectionManager.DisconnectAll cmAB).2.heap connA.dbRef).Status =
      ConnectionStatus.disconnected ∧
    ((ConnectionManager.DisconnectAll cmAB).2.heap connB.dbRef).Status =
      ConnectionStatus.disconnected ∧
    ¬ (ConnectionManager.DisconnectAll cmAB).1 = Except.ok () :=
  ⟨(claim_C4 cmAB).1,
    (claim_C4 cmAB).2.1 (("a"), connA) (by decide),
    (claim_C4 cmAB).2.1 (("b"), connB) (by decide),
    fun hok => absurd ((claim_C4 cmAB).2.2.mp hok (("b"), connB) (by decide)) (by decide)⟩

/-- Claim C5 (confirmed).  Registry Connect on an id that is already
registered fails with ErrAlreadyConnected and returns the registry state
untouched: the existing record, every other record and every heap cell are
exactly as before. -/
theorem claim_C5 (cm : ConnectionManager) (r : Nat)
    (adapterConnect : Adapter → Database → Except String PoolHandle) (conn : Connection)
    (h : lookupConn cm.connections (cm.heap r).ID = some conn) :
    ConnectionManager.Connect cm r adapterConnect =
      (Except.error GoError.alreadyConnected, cm) := by
  unfold ConnectionManager.Connect
  simp [h]

/-- Witness for claim C5: connecting db1 a second time fails with
AlreadyConnected and the registry value is unchanged. -/
theorem claim_C5_witness :
    lookupConn cmOne.connections (cmOne.heap 0).ID = some connOk ∧
    ConnectionManager.Connect cmOne 0 adapterConnectOk =
      (Except.error GoError.alreadyConnected, cmOne) :=
  ⟨by decide, claim_C5 cmOne 0 adapterConnectOk connOk (by decide)⟩

end DMS

namespace DMS

/-- Claim C6 (refuted as stated).  When the driver reports a duplicate
column name, the per-row Go map collapses the duplicates: with columns
a, a and one scanned row of two values, the produced row mapping has a
key set of size 1 while the columns sequence has length 2. -/
theorem claim_C6_counterexample :
    (adapterExecuteQuery drDup).Columns.length = 2 ∧
    (adapterExecuteQuery drDup).Rows.map keySetSize = [1] ∧
    (∀ row ∈ drDup.rows, row.length = drDup.columns.length) := by
  decide

/-- Claim C6 (amended).  For every adapter query result whose
driver-reported column names are pairwise distinct (and with one scanned
value per column, as rows.Scan guarantees), the length of the columns
sequence equals the key-set size of every row mapping; with duplicate
names the key set collapses to the distinct names. -/
theorem claim_C6_amended (dr : DriverRows) (hnd : dr.columns.Nodup)
    (hlen : ∀ row ∈ dr.rows, row.length = dr.columns.length) :
    (adapterExecuteQuery dr).Columns = dr.columns ∧
    ∀ m ∈ (adapterExecuteQuery dr).Rows,
      keySetSize m = (adapterExecuteQuery dr).Columns.length := by
  refine ⟨rfl, ?_⟩
  intro m hm
  rcases List.mem_map.mp hm with ⟨vals, hv, rfl⟩
  have hzip : (dr.columns.zip vals).map Prod.fst = dr.columns :=
    List.map_fst_zip _ _ (le_of_eq (hlen vals hv).symm)
  have hkeys : rowKeys (buildRow dr.columns vals) = dr.columns := by
    unfold buildRow
    have hres := rowLoop_keys (dr.columns.zip vals) [] (by simpa [rowKeys, hzip] using hnd)
    simpa [rowKeys, hzip] using hres
  unfold keySetSize
  rw [hkeys, List.dedup_eq_self.mpr hnd]
  rfl

/-- Witness for the amended claim C6 at a two-column result with distinct
names. -/
theorem claim_C6_witness :
    drGood.columns.Nodup ∧
    (∀ row ∈ drGood.rows, row.length = drGood.columns.length) ∧
    keySetSize (buildRow drGood.columns [Value.vNull, Value.vInt 1]) = 2 :=
  ⟨by decide, by decide, by
    have h := (claim_C6_amended drGood (by decide) (by decide)).2
    simpa [adapterExecuteQuery, drGood] using
      h (buildRow drGood.columns [Value.vNull, Value.vInt 1])
        (by simp [adapterExecuteQuery, drGood])⟩

/-- Claim C7 (refuted as stated).  ListConnections returns the stored
pointers, not copies: with one record holding the secret password, writing
a changed Database value through the returned pointer changes what the
registry stores for db1, contradicting the claimed snapshot-copy
isolation.  The unmasked-password part of the claim does hold. -/
theorem claim_C7_counterexample :
    ConnectionManager.ListConnections cmOne = [connOk.dbRef] ∧
    storedDB cmOne ("db1") = some dbSecret ∧
    storedDB (writeThroughRef cmOne connOk.dbRef dbChanged) ("db1") = some dbChanged ∧
    dbChanged.Password ≠ dbSecret.Password := by
  decide

/-- Claim C7 (amended).  ListConnections returns, under a read lock, the
slice of pointers to the stored Database records — aliases, not copies:
every returned pointer is the pointer of some record, a registered record
contributes its pointer, the value read through it is the stored record
with its raw unmasked password, and writing through a returned pointer
rewrites the stored record itself. -/
theorem claim_C7_amended (cm : ConnectionManager) (dbID : String) (conn : Connection)
    (h : lookupConn cm.connections dbID = some conn) :
    conn.dbRef ∈ ConnectionManager.ListConnections cm ∧
    (∀ r ∈ ConnectionManager.ListConnections cm, ∃ p ∈ cm.connections, r = p.2.dbRef) ∧
    storedDB cm dbID = some (cm.heap conn.dbRef) ∧
    (∀ d, storedDB (writeThroughRef cm conn.dbRef d) dbID = some d) := by
  obtain ⟨p, hp, hp2, hp1⟩ := lookupConn_mem cm.connections dbID conn h
  refine ⟨?_, ?_, ?_, ?_⟩
  · exact List.mem_map.mpr ⟨p, hp, by rw [hp2]⟩
  · intro r hr
    rcases List.mem_map.mp hr with ⟨q, hq, hqr⟩
    exact ⟨q, hq, hqr.symm⟩
  · simp [storedDB, h]
  · intro d
    simp [storedDB, writeThroughRef, h, Heap.write]

/-- Witness for the amended claim C7: the registered db1 pointer occurs in
the returned slice and a write through it lands in the registry. -/
theorem claim_C7_witness :
    lookupConn cmOne.connections ("db1") = some connOk ∧
    connOk.dbRef ∈ ConnectionManager.ListConnections cmOne ∧
    storedDB (writeThroughRef cmOne connOk.dbRef dbChanged) ("db1") = some dbChanged :=
  ⟨by decide, (claim_C7_amended cmOne ("db1") connOk (by decide)).1,
    (claim_C7_amended cmOne ("db1") connOk (by decide)).2.2.2 dbChanged⟩

/-- Claim C8 (refuted as stated).  mariadb10.11 is in the supported tag
set, yet createAdapter has no branch for it (the case is commented out in
the source), so adapter selection — and hence registry Connect on a fresh
MariaDB target — fails with ErrInvalidDatabaseType for a tag inside the
supported set. -/
theorem claim_C8_counterexample :
    DatabaseType.IsValid MariaDB = true ∧
    createAdapter MariaDB = Except.error GoError.invalidDatabaseType ∧
    (ConnectionManager.Connect cmMaria 0 adapterConnectOk).1 =
      Except.error GoError.invalidDatabaseType := by
  decide

/-- Claim C8 (amended).  Adapter selection succeeds exactly for
postgres16.3, oracle19c and oracle11g; for every other tag — including the
supported tag mariadb10.11 — createAdapter fails with
ErrInvalidDatabaseType. -/
theorem claim_C8_amended (dt : String) :
    ((∃ a, createAdapter dt = Except.ok a) ↔
      (dt = PostgreSQL ∨ dt = Oracle19c ∨ dt = Oracle11g)) ∧
    (¬ (dt = PostgreSQL ∨ dt = Oracle19c ∨ dt = Oracle11g) →
      createAdapter dt = Except.error GoError.invalidDatabaseType) := by
  unfold createAdapter
  split_ifs with h1 h2 h3 <;> simp_all

/-- Witness for the amended claim C8 at the mariadb10.11 tag. -/
theorem claim_C8_witness :
    ¬ (MariaDB = PostgreSQL ∨ MariaDB = Oracle19c ∨ MariaDB = Oracle11g) ∧
    createAdapter MariaDB = Except.error GoError.invalidDatabaseType :=
  ⟨by decide, (claim_C8_amended MariaDB).2 (by decide)⟩

/-- Claim C9 (confirmed).  The service masks passwords in place through the
pointers ListConnections returns: for a registered record with a non-empty
stored password, one call to ListDatabases (or to GetDatabaseInfo on an id
the scan finds) leaves the registry's stored Password field equal to the
four-star mask, and ListDatabases returns exactly the registry's pointer
slice. -/
theorem claim_C9 (cm : ConnectionManager) (dbID : String) (conn : Connection)
    (h : lookupConn cm.connections dbID = some conn)
    (hp : (cm.heap conn.dbRef).Password.length ≠ 0) :
    ((serviceListDatabases cm).2.heap conn.dbRef).Password = "****" ∧
    (serviceListDatabases cm).1 = ConnectionManager.ListConnections cm ∧
    (∀ r, (ConnectionManager.ListConnections cm).find? (fun x => (cm.heap x).ID = dbID) =
        some r →
      (cm.heap r).Password.length ≠ 0 → dbID.length ≠ 0 →
      ((serviceGetDatabaseInfo cm dbID).2.heap r).Password = "****") := by
  obtain ⟨p, hpmem, hp2, hp1⟩ := lookupConn_mem cm.connections dbID conn h
  have hmem : conn.dbRef ∈ ConnectionManager.ListConnections cm :=
    List.mem_map.mpr ⟨p, hpmem, by rw [hp2]⟩
  refine ⟨?_, rfl, ?_⟩
  · show ((ConnectionManager.ListConnections cm).foldl maskStep cm.heap conn.dbRef).Password =
      "****"
    rw [maskFold_at]
    simp [hmem, mask1, Database.MaskedPassword, hp]
  · intro r hfind hr hid
    simp [serviceGetDatabaseInfo, hid, hfind, maskStep, Heap.write, mask1,
      Database.MaskedPassword, hr]

/-- Witness for claim C9: after ListDatabases and after GetDatabaseInfo the
stored password of db1 is the mask. -/
theorem claim_C9_witness :
    lookupConn cmOne.connections ("db1") = some connOk ∧
    (cmOne.heap connOk.dbRef).Password.length ≠ 0 ∧
    ((serviceListDatabases cmOne).2.heap connOk.dbRef).Password = "****" ∧
    ((serviceGetDatabaseInfo cmOne ("db1")).2.heap 0).Password = "****" :=
  ⟨by decide, by decide,
    (claim_C9 cmOne ("db1") connOk (by decide) (by decide)).1,
    (claim_C9 cmOne ("db1") connOk (by decide) (by decide)).2.2 0
      (by decide) (by decide) (by decide)⟩

/-- Claim C10 (refuted as stated).  With db1 registered, cached status
Connected but a failing health probe, the service DisconnectDatabase
returns ErrDatabaseNotFound and does not remove the record — but the
registry is NOT left unchanged: the failed probe inside IsConnected flips
the stored status of db1 from Connected to Disconnected. -/
theorem claim_C10_counterexample :
    (serviceDisconnectDatabase cmBadPing ("db1")).1 = Except.error GoError.databaseNotFound ∧
    lookupConn cmBadPing.connections ("db1") = some connBadPing ∧
    (cmBadPing.heap 0).Status = ConnectionStatus.connected ∧
    ((serviceDisconnectDatabase cmBadPing ("db1")).2.heap 0).Status =
      ConnectionStatus.disconnected ∧
    lookupConn (serviceDisconnectDatabase cmBadPing ("db1")).2.connections ("db1") =
      some connBadPing := by
  decide

/-- Claim C10 (amended).  Whenever the IsConnected pre-check reports false
— including a registered id whose probe fails — the service
DisconnectDatabase returns ErrDatabaseNotFound without invoking the
registry Disconnect, and no record is added or removed; the only state
change is the one IsConnected itself makes, flipping a probe-failed
record's cached status to Disconnected.  The registry Disconnect is
reached only when the probe succeeds and the cached status is Connected. -/
theorem claim_C10_amended (cm : ConnectionManager) (dbID : String)
    (hid : dbID.length ≠ 0) (hb : (ConnectionManager.IsConnected cm dbID).1 = false) :
    serviceDisconnectDatabase cm dbID =
      (Except.error GoError.databaseNotFound, (ConnectionManager.IsConnected cm dbID).2) ∧
    (ConnectionManager.IsConnected cm dbID).2.connections = cm.connections := by
  constructor
  · unfold serviceDisconnectDatabase
    simp [hid, hb]
  · exact isConnected_connections cm dbID

/-- Witness for the amended claim C10 in the failing-probe state. -/
theorem claim_C10_witness :
    ("db1" : String).length ≠ 0 ∧
    (ConnectionManager.IsConnected cmBadPing ("db1")).1 = false ∧
    serviceDisconnectDatabase cmBadPing ("db1") =
      (Except.error GoError.databaseNotFound,
        (ConnectionManager.IsConnected cmBadPing ("db1")).2) :=
  ⟨by decide, by decide, (claim_C10_amended cmBadPing ("db1") (by decide) (by decide)).1⟩

end DMS
